import Mathlib

/-
Verification of crates/aptos/src/move_tool/cli_package_new.rs (template
instantiation engine of the `aptos new` command).

Strings are modelled as `List Char`.  All inputs of interest here are ASCII,
so Rust byte indices coincide with character indices and Rust's
Unicode-whitespace trim agrees with `Char.isWhitespace`.  Literal braces in
Lean string literals are written with the escapes \x7b and \x7d.
-/

namespace CliPackageNew

/- ===== Rust `str` primitives used by the source file ===== -/

/-- Rust `str::find` for a string pattern: index of the first occurrence of
`pat` in `s`, or `none`. -/
def strFind (pat : List Char) : List Char → Option Nat
  | [] => if pat.isPrefixOf ([] : List Char) then some 0 else none
  | c :: rest =>
    if pat.isPrefixOf (c :: rest) then some 0 else (strFind pat rest).map (· + 1)

/-- Drop the longest suffix of `s` all of whose characters satisfy `p`
(the mirror of `List.dropWhile`). -/
def dropTailWhile (p : Char → Bool) (s : List Char) : List Char :=
  ((s.reverse).dropWhile p).reverse

/-- Rust `str::trim`: remove leading and trailing whitespace. -/
def rustTrim (s : List Char) : List Char :=
  dropTailWhile Char.isWhitespace (s.dropWhile Char.isWhitespace)

/-- Rust `str::trim_matches(c)`: remove all leading and trailing copies of the
character `c`. -/
def rustTrimMatches (c : Char) (s : List Char) : List Char :=
  dropTailWhile (· == c) (s.dropWhile (· == c))

/-- One fuel-indexed round of Rust `str::trim_start_matches(pat)`: while `pat`
is a nonempty leading pattern of `s`, drop it.  Fuel of `s.length` always
suffices since every round removes at least one character. -/
def trimStartAux (pat : List Char) : Nat → List Char → List Char
  | 0, s => s
  | fuel + 1, s =>
    if pat.isPrefixOf s && !pat.isEmpty then trimStartAux pat fuel (s.drop pat.length)
    else s

/-- Rust `str::trim_start_matches(pat)`: repeatedly remove the leading
occurrence of the string `pat`. -/
def rustTrimStartMatches (s pat : List Char) : List Char :=
  trimStartAux pat s.length s

/-- Rust `str::replace(pat, rep)`: replace every non-overlapping occurrence of
`pat`, scanning left to right.  Fuel-indexed; fuel `s.length` suffices since
every step consumes at least one character of `s` (all patterns passed by the
source are token spans, which are nonempty). -/
def replaceAllAux (pat rep : List Char) : Nat → List Char → List Char
  | _, [] => []
  | 0, s => s
  | fuel + 1, c :: rest =>
    if pat.isPrefixOf (c :: rest) && !pat.isEmpty then
      rep ++ replaceAllAux pat rep fuel ((c :: rest).drop pat.length)
    else
      c :: replaceAllAux pat rep fuel rest

/-- Rust `str::replace(pat, rep)` at fuel `s.length`. -/
def rustReplace (s pat rep : List Char) : List Char :=
  replaceAllAux pat rep s.length s

/- ===== Token scanner (source lines 551-574, `str_to_insert_position`) ===== -/

/-- The key extracted from a token span (source line 569):
`position.trim().trim_matches(brace-open).trim_matches(brace-close).trim()`. -/
def positionKey (position : List Char) : List Char :=
  rustTrim (rustTrimMatches '\x7d' (rustTrimMatches '\x7b' (rustTrim position)))

/-- The `while let` loop of `str_to_insert_position` (source lines 558-571),
fuel-indexed on the number of loop iterations; `none` means the fuel ran out.
The loop state is the byte cursor `cur` and the accumulated `result` vector.
Mirrors the source exactly: on finding an opening marker at `start` with no
closing marker after it, the source executes `continue` with `cur = start`. -/
def scanLoop (text : List Char) : Nat → Nat → List (List Char × List Char) →
    Option (List (List Char × List Char))
  | 0, _, _ => none
  | fuel + 1, cur, result =>
    match strFind ("\x7b\x7b".toList) (text.drop cur) with
    | none => some result
    | some rel =>
      let start := cur + rel
      match strFind ("\x7d\x7d".toList) (text.drop start) with
      | none => scanLoop text fuel start result
      | some rel2 =>
        let endPos := start + rel2 + 2
        let position := (text.drop start).take (rel2 + 2)
        scanLoop text fuel endPos (result ++ [(positionKey position, position)])

/-- `str_to_insert_position` run with fuel `text.length + 1`, which suffices
for every terminating execution of the source loop (each iteration that does
not return advances the cursor by at least four); `none` exactly when the
source loop never terminates. -/
def str_to_insert_position (text : List Char) :
    Option (List (List Char × List Char)) :=
  scanLoop text (text.length + 1) 0 []

/- ===== Substitution (source lines 576-584, `str_replace_position`) ===== -/

/-- Lookup in the key-to-value mapping.  The source builds a `HashMap` from a
slice of pairs; every call site passes pairwise-distinct keys, for which an
association-list lookup is equivalent. -/
def lookupKV (kv : List (List Char × List Char)) (key : List Char) :
    Option (List Char) :=
  match kv with
  | [] => none
  | (k, v) :: rest => if k = key then some v else lookupKV rest key

/-- The body of the `for` loop of `str_replace_position` (source lines
578-582): if the token key is mapped, replace every occurrence of the token's
literal span in the accumulated result string. -/
def replaceStep (key_value : List (List Char × List Char)) (result : List Char)
    (kp : List Char × List Char) : List Char :=
  match lookupKV key_value kp.1 with
  | some value => rustReplace result kp.2 value
  | none => result

/-- `str_replace_position`: scan the original `text` for tokens, then fold the
replacement step over them starting from `text`.  `none` exactly when the
token scan (hence the source function) does not terminate. -/
def str_replace_position (text : List Char)
    (key_value : List (List Char × List Char)) : Option (List Char) :=
  (str_to_insert_position text).map fun tokens =>
    tokens.foldl (replaceStep key_value) text

/- ===== Directory mirror (source lines 526-549, `cp_r`) ===== -/

/-- Join of a base path with a relative-path string, as `PathBuf::join` on the
(slash-free-at-front) strings produced inside `cp_r`. -/
def pathJoin (base rel : List Char) : List Char :=
  if rel = [] then base else base ++ '/' :: rel

/-- Destination path computed by `cp_r` (source lines 534-539):
`to.join(copy_from.trim_start_matches(from).trim_start_matches(slash))`. -/
def computeCopyTo (toP fromP entry : List Char) : List Char :=
  pathJoin toP (rustTrimStartMatches (rustTrimStartMatches entry fromP) ['/'])

/-- A filesystem node: a regular file with text content, or a directory. -/
inductive FsNode
  | file (content : List Char)
  | dir
deriving DecidableEq

/-- A flat filesystem: association of absolute path strings to nodes. -/
abbrev Fs := List (List Char × FsNode)

/-- Node stored at path `p`, if any. -/
def fsLookup : Fs → List Char → Option FsNode
  | [], _ => none
  | (q, m) :: rest, p => if q = p then some m else fsLookup rest p

/-- Store node `n` at path `p` (replacing any previous node there). -/
def fsSet : Fs → List Char → FsNode → Fs
  | [], p, n => [(p, n)]
  | (q, m) :: rest, p, n =>
    if q = p then (p, n) :: rest else (q, m) :: fsSet rest p n

/-- The parent directory of a path string: everything before the last slash. -/
def parentOf (p : List Char) : List Char :=
  (((p.reverse).dropWhile (· != '/')).drop 1).reverse

/-- Errors surfaced by the filesystem primitives used in `cp_r`. -/
inductive FsError
  | alreadyExists
  | parentMissing
  | destIsDir
deriving DecidableEq

/-- `std::fs::copy(src, p)` restricted to what `cp_r` relies on: overwrites an
existing regular file at `p`, fails if `p` is a directory, and otherwise
creates the file provided the parent directory exists. -/
def fsCopy (d : Fs) (p content : List Char) : Except FsError Fs :=
  match fsLookup d p with
  | some (.file _) => .ok (fsSet d p (.file content))
  | some .dir => .error .destIsDir
  | none =>
    if fsLookup d (parentOf p) = some .dir then .ok (fsSet d p (.file content))
    else .error .parentMissing

/-- `std::fs::create_dir(p)`: fails if `p` already exists (AlreadyExists) or
its parent is missing; otherwise creates an empty directory. -/
def fsCreateDir (d : Fs) (p : List Char) : Except FsError Fs :=
  match fsLookup d p with
  | some _ => .error .alreadyExists
  | none =>
    if fsLookup d (parentOf p) = some .dir then .ok (fsSet d p .dir)
    else .error .parentMissing

/-- One walked entry of the source tree: a file (with its content) or a
directory, as reported by `is_file` / `is_dir`. -/
inductive EntryKind
  | file (content : List Char)
  | dir
deriving DecidableEq

/-- `cp_r(from, to)` (source lines 526-549).  `entries` is the output of
`WalkDir::new(from).into_iter().filter_map(ok).skip(1)`: the depth-first list
of descendants of `from` (the root itself excluded), each with its absolute
source path.  For each entry the destination is `computeCopyTo`; a file entry
issues `fs::copy` and a directory entry issues `fs::create_dir`; the first
error aborts the whole operation (`?`). -/
def cp_r (fromP toP : List Char) :
    List (List Char × EntryKind) → Fs → Except FsError Fs
  | [], d => .ok d
  | (p, .file c) :: rest, d =>
    match fsCopy d (computeCopyTo toP fromP p) c with
    | .ok d' => cp_r fromP toP rest d'
    | .error e => .error e
  | (p, .dir) :: rest, d =>
    match fsCreateDir d (computeCopyTo toP fromP p) with
    | .ok d' => cp_r fromP toP rest d'
    | .error e => .error e

/- ===== Target-directory validation (source lines 328-348) ===== -/

/-- Errors of `PackageDir::from_str`. -/
inductive PackageDirError
  | cannotRead
  | notEmpty
deriving DecidableEq

/-- `PackageDir::from_str` (source lines 331-347).  `absPath` is the
absolutized input path; `dirPresent` models `package_dir.exists()`;
`readDirResult` models `read_dir()`: `none` if the directory cannot be read,
otherwise the list of entries where an individual `Err` entry is `none`
(dropped by the source's `filter_map(ok)`). -/
def packageDirFromStr (absPath : List Char) (dirPresent : Bool)
    (readDirResult : Option (List (Option (List Char)))) :
    Except PackageDirError (List Char) :=
  if !dirPresent then .ok absPath
  else
    match readDirResult with
    | none => .error .cannotRead
    | some items =>
      if items.filterMap id = [] then .ok absPath else .error .notEmpty

/- ===== Template source resolution (source lines 352-465) ===== -/

/-- The three creation templates (discriminants 1, 2, 3 as in the source). -/
inductive TemplateType
  | onlyMoveToml
  | emptyPackage
  | exampleWithCoin
deriving DecidableEq

/-- The numeric value `*self as u8` of a template (source line 397). -/
def TemplateType.discr : TemplateType → Nat
  | .onlyMoveToml => 1
  | .emptyPackage => 2
  | .exampleWithCoin => 3

/-- `TemplateType::url` (source lines 457-465).  `OnlyMoveToml` has no URL;
`ExampleWithCoin` is `todo!()` in the source (a panic), so no URL value is
ever produced for it either. -/
def TemplateType.url : TemplateType → Option (List Char)
  | .onlyMoveToml => none
  | .emptyPackage => some ("https://github.com/mkurnikov/aptos-templates.git".toList)
  | .exampleWithCoin => none

/-- `TemplateType::git_template_path` (source lines 396-398):
`temp_dir().join(aptos_template_ ++ discriminant)`.  `tmpDir` is the
machine's temporary directory. -/
def git_template_path (tmpDir : List Char) (t : TemplateType) : List Char :=
  pathJoin tmpDir ("aptos_template_".toList ++ (Nat.repr (TemplateType.discr t)).toList)

/-- The set of paths that currently exist on the machine, as consulted and
extended by `git_download`. -/
structure GitState where
  existing : List (List Char)
deriving DecidableEq

/-- `TemplateType::git_download` (source lines 400-410): compute the cache
path; if it does not exist, clone the remote URL into it (modelled as adding
the path to the set of existing paths — the success case); if it exists,
return it unchanged without any fetch.  The `Bool` reports whether a clone
was performed.  `none` models the `unreachable!()` panic taken when the
template has no URL. -/
def git_download (tmpDir : List Char) (t : TemplateType) (s : GitState) :
    Option (List Char × GitState × Bool) :=
  match TemplateType.url t with
  | none => none
  | some _ =>
    let p := git_template_path tmpDir t
    if p ∈ s.existing then some (p, s, false)
    else some (p, GitState.mk (p :: s.existing), true)

/- ===== Profile step and substitution context (source lines 113-132) ===== -/

/-- The sentinel replacement value for `default_address` when profile
creation is skipped (source line 116). -/
def sentinelAddress : List Char := "_".toList

/-- Result of the profile-creation step: whether the external initializer
(`aptos_init_profile_default`) was invoked, and the address string used. -/
structure ProfileStep where
  initInvoked : Bool
  addressHex : List Char
deriving DecidableEq

/-- Source lines 113-117: invoke the external profile initializer unless
`skip_profile_creation` is set, in which case the sentinel is used. -/
def profileCreationStep (skip_profile_creation : Bool)
    (externalInit : Unit → List Char) : ProfileStep :=
  if !skip_profile_creation then ProfileStep.mk true (externalInit ())
  else ProfileStep.mk false sentinelAddress

/-- The substitution context handed to `replace_values_in_the_template`
(source lines 125-132). -/
def substitutionContext
    (package_name package_lowercase_name profile_address_hex : List Char) :
    List (List Char × List Char) :=
  [("package_name".toList, package_name),
   ("package_lowercase_name".toList, package_lowercase_name),
   ("default_address".toList, profile_address_hex)]

/- ===== Helper lemmas ===== -/

theorem isPrefixOf_append_self (l t : List Char) : l.isPrefixOf (l ++ t) = true := by
  induction l with
  | nil => simp [List.isPrefixOf]
  | cons a as ih => simp [List.isPrefixOf, ih]

theorem trimStartAux_of_no_match (pat s : List Char)
    (h : pat.isPrefixOf s = false) : ∀ fuel, trimStartAux pat fuel s = s := by
  intro fuel
  cases fuel with
  | zero => rfl
  | succ n => simp [trimStartAux, h]

theorem trimStartAux_append (pat t : List Char) (hne : pat.isEmpty = false)
    (fuel : Nat) : trimStartAux pat (fuel + 1) (pat ++ t) = trimStartAux pat fuel t := by
  simp [trimStartAux, isPrefixOf_append_self, hne, List.drop_left]

/-- A single strip: when `pat` is nonempty and no longer occurs at the front
of the remainder, `trim_start_matches` removes exactly one copy of `pat`. -/
theorem rustTrimStartMatches_strip_one (pat t : List Char) (hne : pat ≠ [])
    (h : pat.isPrefixOf t = false) : rustTrimStartMatches (pat ++ t) pat = t := by
  cases pat with
  | nil => exact absurd rfl hne
  | cons a as =>
    have hlen : ((a :: as) ++ t).length = (as.length + t.length) + 1 := by
      simp only [List.length_append, List.length_cons]
      omega
    unfold rustTrimStartMatches
    rw [hlen, trimStartAux_append _ _ (by rfl) _,
      trimStartAux_of_no_match _ _ h]

theorem foldl_replaceStep_of_unmapped (kv : List (List Char × List Char)) :
    ∀ (tokens : List (List Char × List Char)) (acc : List Char),
      (∀ kp, kp ∈ tokens → lookupKV kv kp.1 = none) →
      List.foldl (replaceStep kv) acc tokens = acc := by
  intro tokens
  induction tokens with
  | nil => intro acc _; rfl
  | cons kp rest ih =>
    intro acc h
    have h1 : lookupKV kv kp.1 = none := h kp (by simp)
    have h2 : ∀ q, q ∈ rest → lookupKV kv q.1 = none := fun q hq => h q (by simp [hq])
    rw [List.foldl_cons, show replaceStep kv acc kp = acc from by simp [replaceStep, h1]]
    exact ih acc h2

/-- The loop of `str_to_insert_position` makes no progress once it has found
an opening marker with no closing marker after it: on `"(open)(open)x"` the
loop state after one step is identical to the state before it. -/
theorem scanLoop_unterminated_step (fuel : Nat)
    (acc : List (List Char × List Char)) :
    scanLoop ("\x7b\x7bx".toList) (fuel + 1) 0 acc =
      scanLoop ("\x7b\x7bx".toList) fuel 0 acc := rfl

/- ===== Claim theorems ===== -/

/-- C1 (counterexample): the mirror does not skip entries whose destination
already exists.  Mirroring a source containing the file `f` with content
`new` into a destination that already holds `f` with content `old` succeeds
and overwrites the pre-existing file, contradicting the claimed
skip-entirely / nothing-overwritten behaviour. -/
theorem c1_counterexample :
    cp_r ("/s".toList) ("/t".toList)
        [("/s/f".toList, .file ("new".toList))]
        [("/t".toList, .dir), ("/t/f".toList, .file ("old".toList))] =
      .ok [("/t".toList, .dir), ("/t/f".toList, .file ("new".toList))] ∧
    ("new".toList) ≠ ("old".toList) := ⟨rfl, by decide⟩

/-- C1 (amended): `cp_r` makes no destination-existence check.  For a file
entry whose computed destination already holds a regular file, `fs::copy`
succeeds and overwrites it with the source content; for a directory entry
whose computed destination already exists (as any node), `fs::create_dir`
fails with AlreadyExists and the error aborts the mirror.  Re-running the
mirror is therefore not a skipping no-op. -/
theorem c1_amended (toP fromP p c c' : List Char) (d : Fs) :
    (fsLookup d (computeCopyTo toP fromP p) = some (.file c') →
      cp_r fromP toP [(p, .file c)] d =
        .ok (fsSet d (computeCopyTo toP fromP p) (.file c))) ∧
    (∀ n : FsNode, fsLookup d (computeCopyTo toP fromP p) = some n →
      cp_r fromP toP [(p, .dir)] d = .error .alreadyExists) := by
  constructor
  · intro h
    simp [cp_r, fsCopy, h]
  · intro n h
    simp [cp_r, fsCreateDir, h]

/-- C1 (witness for the amended theorem): concrete overwrite of a
pre-existing destination file, and concrete AlreadyExists failure of a
second mirror run over a source containing a directory. -/
theorem c1_amended_witness :
    cp_r ("/s".toList) ("/t".toList)
        [("/s/g".toList, .file ("c2".toList))]
        [("/t".toList, .dir), ("/t/g".toList, .file ("c1".toList))] =
      .ok [("/t".toList, .dir), ("/t/g".toList, .file ("c2".toList))] ∧
    cp_r ("/s".toList) ("/t".toList)
        [("/s/d".toList, .dir)]
        [("/t".toList, .dir), ("/t/d".toList, .dir)] =
      .error .alreadyExists := by
  constructor
  · exact (c1_amended ("/t".toList) ("/s".toList) ("/s/g".toList)
      ("c2".toList) ("c1".toList)
      [("/t".toList, .dir), ("/t/g".toList, .file ("c1".toList))]).1 (by rfl)
  · exact (c1_amended ("/t".toList) ("/s".toList) ("/s/d".toList)
      ("x".toList) ("x".toList)
      [("/t".toList, .dir), ("/t/d".toList, .dir)]).2 .dir (by rfl)

/-- C2 (code_bug): the token scanner does not terminate on every input.  On
the input `(open)(open)x` — an opening marker with no following closing
marker — the source loop finds the marker, fails to find a closing marker,
and `continue`s with the cursor left at the marker, so the very same
iteration repeats forever: for every amount of fuel the loop has not
returned.  The claim (and the spec) say scanning ends, silently ignoring the
unterminated marker. -/
theorem c2_scan_nonterminating :
    ∀ (fuel : Nat) (acc : List (List Char × List Char)),
      scanLoop ("\x7b\x7bx".toList) fuel 0 acc = none := by
  intro fuel
  induction fuel with
  | zero => intro acc; rfl
  | succ n ih =>
    intro acc
    rw [scanLoop_unterminated_step]
    exact ih acc

/-- C2 (witness): the non-termination theorem applied at concrete fuel. -/
theorem c2_scan_nonterminating_witness :
    scanLoop ("\x7b\x7bx".toList) 5 0 [] = none :=
  c2_scan_nonterminating 5 []

/-- C3 (counterexample): substitution does not always leave tokens with
unmapped keys verbatim.  On the text `(( ((a)) ))((a))` (with braces for
parentheses) with context mapping only `a` to `Y`, the scanner finds an
unmapped token with span `(( ((a))` and a mapped token with span `((a))`;
replacing the mapped span rewrites text inside the unmapped token's span, so
the unmapped span no longer occurs in the output at all. -/
theorem c3_counterexample :
    str_to_insert_position ("\x7b\x7b \x7b\x7ba\x7d\x7d \x7d\x7d\x7b\x7ba\x7d\x7d".toList) =
      some [("\x7b\x7ba".toList, "\x7b\x7b \x7b\x7ba\x7d\x7d".toList),
            ("a".toList, "\x7b\x7ba\x7d\x7d".toList)] ∧
    lookupKV [("a".toList, "Y".toList)] ("\x7b\x7ba".toList) = none ∧
    str_replace_position ("\x7b\x7b \x7b\x7ba\x7d\x7d \x7d\x7d\x7b\x7ba\x7d\x7d".toList)
        [("a".toList, "Y".toList)] =
      some ("\x7b\x7b Y \x7d\x7dY".toList) ∧
    strFind ("\x7b\x7b \x7b\x7ba\x7d\x7d".toList) ("\x7b\x7b Y \x7d\x7dY".toList) = none := by
  refine ⟨rfl, rfl, rfl, rfl⟩

/-- C3 (amended): for each token found in the text whose key is mapped,
every occurrence of the token's exact span in the working string is replaced
by the mapped value; when no found token has a mapped key, the text is
returned unchanged (unmapped tokens are left verbatim as long as no mapped
replacement rewrites text inside their span); in particular with context
`x -> Y`, `a((x))b((x))c` yields `aYbYc` and an unmapped `((z))` token
passes through verbatim. -/
theorem c3_amended :
    (∀ (text : List Char) (ctx tokens : List (List Char × List Char)),
        str_to_insert_position text = some tokens →
        (∀ kp, kp ∈ tokens → lookupKV ctx kp.1 = none) →
        str_replace_position text ctx = some text) ∧
    str_replace_position ("a\x7b\x7bx\x7d\x7db\x7b\x7bx\x7d\x7dc".toList)
        [("x".toList, "Y".toList)] = some ("aYbYc".toList) ∧
    str_replace_position ("a\x7b\x7bx\x7d\x7db\x7b\x7bz\x7d\x7dc".toList)
        [("x".toList, "Y".toList)] = some ("aYb\x7b\x7bz\x7d\x7dc".toList) := by
  refine ⟨?_, rfl, rfl⟩
  intro text ctx tokens hscan hnone
  unfold str_replace_position
  rw [hscan]
  exact congrArg some (foldl_replaceStep_of_unmapped ctx tokens text hnone)

/-- C3 (witness for the amended theorem): the all-unmapped clause applied at
a concrete text and empty context, and the two concrete clauses. -/
theorem c3_amended_witness :
    str_replace_position ("\x7b\x7bq\x7d\x7d".toList) [] =
      some ("\x7b\x7bq\x7d\x7d".toList) :=
  c3_amended.1 ("\x7b\x7bq\x7d\x7d".toList) []
    [("q".toList, "\x7b\x7bq\x7d\x7d".toList)] rfl (by decide)

/-- C4 (counterexample): on the input `(((789))` — three consecutive opening
braces, then a key, then a closing marker — the scanner's token has literal
span `(((789))` (all three opening braces included, matching from the first
brace), not `((789))` as the claim states. -/
theorem c4_counterexample :
    str_to_insert_position ("\x7b\x7b\x7b789\x7d\x7d".toList) =
      some [("789".toList, "\x7b\x7b\x7b789\x7d\x7d".toList)] ∧
    ("\x7b\x7b\x7b789\x7d\x7d".toList) ≠ ("\x7b\x7b789\x7d\x7d".toList) :=
  ⟨rfl, by decide⟩

/-- C4 (amended): for the input `(((789))` the scanner yields one token with
key `789` and literal span `(((789))`: the match starts from the first
opening brace and the span includes all three opening braces; the key still
has all surrounding braces and whitespace trimmed away. -/
theorem c4_amended :
    str_to_insert_position ("\x7b\x7b\x7b789\x7d\x7d".toList) =
      some [("789".toList, "\x7b\x7b\x7b789\x7d\x7d".toList)] := rfl

/-- C5: on the exact fixture input `((123))(( 456 ))(((789))` the scanner
yields, in left-to-right order, keys `123`, `456`, `789` with literal spans
`((123))`, `(( 456 ))`, `(((789))` — as the claim states. -/
theorem c5_token_fixture :
    str_to_insert_position
        ("\x7b\x7b123\x7d\x7d\x7b\x7b 456 \x7d\x7d\x7b\x7b\x7b789\x7d\x7d".toList) =
      some [("123".toList, "\x7b\x7b123\x7d\x7d".toList),
            ("456".toList, "\x7b\x7b 456 \x7d\x7d".toList),
            ("789".toList, "\x7b\x7b\x7b789\x7d\x7d".toList)] := rfl

/-- C6 (counterexample): the destination path is not always
`dest_root / (source path relative to source_root)`.  With source root `/a`
and walked entry `/a/a/x` (relative path `a/x`), `trim_start_matches`
strips the string `/a` twice, so the computed destination is `/t/x` rather
than `/t/a/x`. -/
theorem c6_counterexample :
    computeCopyTo ("/t".toList) ("/a".toList) ("/a/a/x".toList) = ("/t/x".toList) ∧
    ("/t/x".toList) ≠ pathJoin ("/t".toList) ("a/x".toList) :=
  ⟨rfl, by decide⟩

/-- C6 (amended): the destination is `dest_root` joined with the entry path
after repeatedly stripping the `source_root` string from the front and then
stripping leading slashes.  Whenever the slash-prefixed relative path does
not itself begin with the `source_root` string (and the relative path is
nonempty and does not begin with a slash, as WalkDir guarantees), this equals
`dest_root / relative path`, as the claim states. -/
theorem c6_amended (toP fromP rel : List Char) (h1 : fromP ≠ [])
    (h2 : fromP.isPrefixOf ('/' :: rel) = false) (h3 : rel ≠ [])
    (h4 : (['/'] : List Char).isPrefixOf rel = false) :
    computeCopyTo toP fromP (fromP ++ '/' :: rel) = toP ++ '/' :: rel := by
  unfold computeCopyTo
  rw [show fromP ++ '/' :: rel = fromP ++ ('/' :: rel) from rfl,
    rustTrimStartMatches_strip_one fromP ('/' :: rel) h1 h2,
    show ('/' :: rel) = ['/'] ++ rel from rfl,
    rustTrimStartMatches_strip_one ['/'] rel (by simp) h4]
  simp [pathJoin, h3]

/-- C6 (witness): the amended theorem at the concrete rebase of `/s/f` from
source root `/s` onto destination root `/t`. -/
theorem c6_amended_witness :
    computeCopyTo ("/t".toList) ("/s".toList) ("/s".toList ++ '/' :: "f".toList) =
      "/t".toList ++ '/' :: "f".toList :=
  c6_amended ("/t".toList) ("/s".toList) ("f".toList)
    (by decide) (by decide) (by decide) (by decide)

/-- C7: parsing a target directory fails with an error exactly on a
pre-existing directory with at least one (readable) entry: it succeeds when
the path does not exist, succeeds when the directory exists and is empty,
and fails with the not-empty error when the directory exists and has an
entry — so a pre-existing non-empty target is rejected during argument
parsing, before any write occurs. -/
theorem c7_package_dir_guard (absPath : List Char)
    (items : List (Option (List Char)))
    (r : Option (List (Option (List Char)))) :
    (packageDirFromStr absPath false r = .ok absPath) ∧
    (items.filterMap id ≠ [] →
      packageDirFromStr absPath true (some items) = .error .notEmpty) ∧
    (items.filterMap id = [] →
      packageDirFromStr absPath true (some items) = .ok absPath) := by
  refine ⟨rfl, ?_, ?_⟩ <;> intro h <;> simp [packageDirFromStr, h]

/-- C7 (witness): the guard at a concrete non-empty and a concrete empty
pre-existing directory. -/
theorem c7_package_dir_guard_witness :
    packageDirFromStr ("/p".toList) true (some [some ("e".toList)]) =
      .error .notEmpty ∧
    packageDirFromStr ("/p".toList) true (some []) = .ok ("/p".toList) :=
  ⟨(c7_package_dir_guard ("/p".toList) [some ("e".toList)] none).2.1 (by decide),
   (c7_package_dir_guard ("/p".toList) [] none).2.2 (by decide)⟩

/-- C8: `git_download` is fetch-once idempotent.  For a template with a URL,
it always returns the deterministic cache path `git_template_path`; if that
path already exists it returns it unchanged with no clone; if it does not
exist it clones (exactly once) into it; and after any successful call a
second call returns the same path and state and performs no fetch. -/
theorem c8_git_download_fetch_once (tmpDir : List Char) (t : TemplateType)
    (s : GitState) (hurl : (TemplateType.url t).isSome = true) :
    (git_template_path tmpDir t ∈ s.existing →
      git_download tmpDir t s = some (git_template_path tmpDir t, s, false)) ∧
    (git_template_path tmpDir t ∉ s.existing →
      git_download tmpDir t s =
        some (git_template_path tmpDir t,
          GitState.mk (git_template_path tmpDir t :: s.existing), true)) ∧
    (∀ (p : List Char) (s' : GitState) (cloned : Bool),
      git_download tmpDir t s = some (p, s', cloned) →
      git_download tmpDir t s' = some (p, s', false)) := by
  obtain ⟨u, hu⟩ := Option.isSome_iff_exists.mp hurl
  refine ⟨fun hmem => by simp [git_download, hu, hmem],
    fun hmem => by simp [git_download, hu, hmem], ?_⟩
  intro p s' cloned h
  by_cases hmem : git_template_path tmpDir t ∈ s.existing
  · simp only [git_download, hu, if_pos hmem, Option.some.injEq,
      Prod.mk.injEq] at h
    obtain ⟨hp, hs, _⟩ := h
    subst hp
    subst hs
    simp [git_download, hu, hmem]
  · simp only [git_download, hu, if_neg hmem, Option.some.injEq,
      Prod.mk.injEq] at h
    obtain ⟨hp, hs, _⟩ := h
    subst hp
    subst hs
    simp [git_download, hu]

/-- C8 (witness): with an empty machine state, downloading the empty-package
template clones into the cache path, and a repeated call after that performs
no fetch and returns the same path and state. -/
theorem c8_git_download_fetch_once_witness :
    git_download ("/tmp".toList) .emptyPackage (GitState.mk []) =
      some (git_template_path ("/tmp".toList) .emptyPackage,
        GitState.mk [git_template_path ("/tmp".toList) .emptyPackage], true) ∧
    git_download ("/tmp".toList) .emptyPackage
        (GitState.mk [git_template_path ("/tmp".toList) .emptyPackage]) =
      some (git_template_path ("/tmp".toList) .emptyPackage,
        GitState.mk [git_template_path ("/tmp".toList) .emptyPackage], false) := by
  refine ⟨(c8_git_download_fetch_once ("/tmp".toList) .emptyPackage
    (GitState.mk []) rfl).2.1 (by decide), ?_⟩
  exact (c8_git_download_fetch_once ("/tmp".toList) .emptyPackage
    (GitState.mk []) rfl).2.2 _ _ _
      ((c8_git_download_fetch_once ("/tmp".toList) .emptyPackage
        (GitState.mk []) rfl).2.1 (by decide))

/-- C9: when `skip_profile_creation` is set, the external profile
initializer is not invoked and the sentinel `_` is the value mapped to the
`default_address` key in the substitution context handed to
`replace_values_in_the_template`. -/
theorem c9_skip_profile_sentinel (externalInit : Unit → List Char)
    (pname plname : List Char) :
    (profileCreationStep true externalInit).initInvoked = false ∧
    lookupKV
        (substitutionContext pname plname
          (profileCreationStep true externalInit).addressHex)
        ("default_address".toList) =
      some ("_".toList) := ⟨rfl, rfl⟩

/-- C9 (witness): the theorem at concrete arguments. -/
theorem c9_skip_profile_sentinel_witness :
    (profileCreationStep true (fun _ => "0x1".toList)).initInvoked = false ∧
    lookupKV
        (substitutionContext ("Demo".toList) ("demo".toList)
          (profileCreationStep true (fun _ => "0x1".toList)).addressHex)
        ("default_address".toList) =
      some ("_".toList) :=
  c9_skip_profile_sentinel (fun _ => "0x1".toList) ("Demo".toList) ("demo".toList)

/-- C10: substitution is not a protected single pass — tokens are scanned
only in the original text but each replacement is applied to the accumulated
result, so a mapped value that itself contains the span of a later token is
replaced again: `((a))((b))` with `a -> ((b))` and `b -> X` yields `XX`,
not `((b))X`. -/
theorem c10_cascading_replacement :
    str_replace_position ("\x7b\x7ba\x7d\x7d\x7b\x7bb\x7d\x7d".toList)
        [("a".toList, "\x7b\x7bb\x7d\x7d".toList), ("b".toList, "X".toList)] =
      some ("XX".toList) ∧
    ("XX".toList) ≠ ("\x7b\x7bb\x7d\x7dX".toList) := ⟨rfl, by decide⟩

end CliPackageNew
